import Mathlib

/-!
# Verification of `AWSS3UploadManager` (packages/storage/src/providers/AWSS3UploadManager.ts)

A shallow embedding of the resumable-upload reconciliation manager:

* `JsBlob` models the `Blob`/`File` argument (a `File` carries a name and a
  last-modified timestamp in addition to size and content type).
* `FileMetadata` models the persisted `FileMetadata` record; the fields that the
  source inspects with `hasOwnProperty` (`lastTouched`, `timeStarted`) and the
  conditionally-spread `fileName` are `Option`s, so that presence of the
  property is `isSome`.
* `StorageState` models the contents of the persistence substrate under the
  single key `UPLOADS_STORAGE_KEY`: `absent` (getItem returns null),
  `malformed` (a string on which `JSON.parse` throws), or `reg r` (a string
  that parses to a registry object, modelled as an association list).
* The remote S3 client is split into a response oracle `S3Responses`
  (what `send` resolves or rejects with) and a command trace `List S3Cmd`
  recording every command the manager sends.
* Thrown errors / rejected promises are modelled with `Except JsError`.
* `Date.now()` is passed in as a `now : Nat` parameter (epoch milliseconds).
-/

/-- JS `Blob` argument: either a named `File` (name, lastModified, size, type)
or an anonymous `Blob` (size, type).  Numeric fields are epoch-ms / byte
counts, modelled as `Nat`. -/
inductive JsBlob
  | file (name : String) (lastModified : Nat) (size : Nat) (type : String)
  | blob (size : Nat) (type : String)
deriving DecidableEq, Repr

/-- One uploaded part as reported by `ListParts` (`{PartNumber, Size, ETag}`). -/
structure S3Part where
  PartNumber : Nat
  Size : Nat
  ETag : String
deriving DecidableEq, Repr

/-- `ListPartsCommandOutput` as far as the manager inspects it: the source
checks `hasOwnProperty('UploadId')` and `hasOwnProperty('Parts')`, so both
fields are `Option`s whose presence is `isSome`. -/
structure ListPartsOutput where
  UploadId : Option String
  Parts : Option (List S3Part)
deriving DecidableEq, Repr

/-- The persisted `FileMetadata` record.  `fileName` is present only when the
source object was a `File` (conditional spread in `_initMultiupload`);
`lastTouched` and `timeStarted` are `Option`s because `_getCachedUploadParts`
and `_purgeExpiredKeys` guard on `hasOwnProperty` before reading them. -/
structure FileMetadata where
  uploadId : String
  bucket : String
  key : String
  accessLevel : String
  fileName : Option String
  lastTouched : Option Nat
  timeStarted : Option Nat
deriving DecidableEq, Repr

/-- The parsed registry object: fingerprint string to record.  JS objects have
unique keys; the operations below preserve that shape. -/
abbrev Registry := List (String × FileMetadata)

/-- Contents of the persistence substrate under `UPLOADS_STORAGE_KEY`. -/
inductive StorageState
  | absent
  | malformed
  | reg (r : Registry)
deriving DecidableEq, Repr

/-- Errors a manager operation can throw: the `SyntaxError` of `JSON.parse` on
a malformed string, or a rejected S3 command (message payload). -/
inductive JsError
  | syntaxError
  | s3Error (msg : String)
deriving DecidableEq, Repr

/-- Commands sent to the S3 client, recorded in order of issuance. -/
inductive S3Cmd
  | listParts (bucket key uploadId : String)
  | createMultipartUpload (bucket key : String)
  | abortMultipartUpload (bucket key uploadId : String)
deriving DecidableEq, Repr

/-- Response oracle for the S3 client: what each `send` resolves with
(`Except.ok`) or rejects with (`Except.error`).  Abort responses are not
modelled because the source never acts on them before its write-back. -/
structure S3Responses where
  createSession : Except String String
  listPartsFor : String → Except String ListPartsOutput

/-- The external `AWSS3UploadTask`, recorded by its constructor arguments
(the manager treats it as opaque). `completedParts` is `some` exactly when the
constructor received a `completedParts` argument (the resumed path). -/
structure AWSS3UploadTask where
  uploadId : String
  bucket : String
  key : String
  file : JsBlob
  completedParts : Option (List S3Part)
deriving DecidableEq, Repr

/-- JS object property lookup (`obj[k]`, with `hasOwnProperty k = isSome`). -/
def lookupKey {α : Type} : List (String × α) → String → Option α
  | [], _ => none
  | (k', v) :: rest, k => if k' = k then some v else lookupKey rest k

/-- JS object property assignment `obj[k] = v` (replace or append). -/
def setKey {α : Type} : List (String × α) → String → α → List (String × α)
  | [], k, v => [(k, v)]
  | (k', v') :: rest, k, v =>
      if k' = k then (k, v) :: rest else (k', v') :: setKey rest k v

/-- JS `delete obj[k]`. -/
def eraseKey {α : Type} : List (String × α) → String → List (String × α)
  | [], _ => []
  | (k', v') :: rest, k =>
      if k' = k then eraseKey rest k else (k', v') :: eraseKey rest k

/-- Decimal digit to its character, as JS number-to-string conversion
produces for base-10 digits. -/
def decDigitToChar : Nat → Char
  | 0 => '0' | 1 => '1' | 2 => '2' | 3 => '3' | 4 => '4'
  | 5 => '5' | 6 => '6' | 7 => '7' | 8 => '8' | 9 => '9'
  | _ => '*'

/-- Inverse of `decDigitToChar` on decimal digits. -/
def decCharToDigit : Char → Nat
  | '0' => 0 | '1' => 1 | '2' => 2 | '3' => 3 | '4' => 4
  | '5' => 5 | '6' => 6 | '7' => 7 | '8' => 8 | '9' => 9
  | _ => 0

/-- Fuelled digit accumulation: most-significant digit first, like the core
of any decimal printer.  The fuel argument makes the recursion structural. -/
def decReprCore : Nat → Nat → List Char → List Char
  | 0, _, acc => acc
  | fuel + 1, n, acc =>
      if n < 10 then decDigitToChar n :: acc
      else decReprCore fuel (n / 10) (decDigitToChar (n % 10) :: acc)

/-- JS `String(n)` for a non-negative integer `n`: its decimal digit string.
This is the conversion `Array.prototype.join` applies to the numeric fields
(`lastModified`, `size`) inside `_getFileKey`. -/
def decRepr (n : Nat) : String := ⟨decReprCore (n + 1) n []⟩

/-- Decode a decimal digit string back to the number it denotes. -/
def decDecode (cs : List Char) : Nat :=
  Nat.ofDigits 10 ((cs.map decCharToDigit).reverse)

/-- `_getFileKey`: the file fingerprint.  For a `File`:
`[name, lastModified, size, type, bucket, key].join('-')`; for an anonymous
`Blob`: `[size, type, bucket, key].join('-')`. -/
def getFileKey (blob : JsBlob) (bucket key : String) : String :=
  match blob with
  | .file name lastModified size ty =>
      name ++ "-" ++ decRepr lastModified ++ "-" ++ decRepr size ++ "-" ++ ty
        ++ "-" ++ bucket ++ "-" ++ key
  | .blob size ty =>
      decRepr size ++ "-" ++ ty ++ "-" ++ bucket ++ "-" ++ key

/-- `oneHourInMs` from the source. -/
def oneHourInMs : Nat := 1000 * 60 * 60

/-- The staleness test of `_getCachedUploadParts`:
`hasOwnProperty('lastTouched') && Date.now() - lastTouched > oneHourInMs`.
(`Nat` subtraction truncates at 0, matching the JS comparison's outcome when
`lastTouched` lies in the future: a negative difference is not `> ttl`.) -/
def expiredByLastTouched (now : Nat) (md : FileMetadata) : Bool :=
  match md.lastTouched with
  | some t => oneHourInMs < now - t
  | none => false

/-- The expiry test of `_purgeExpiredKeys`:
`hasOwnProperty('timeStarted') && Date.now() - timeStarted > ttl`. -/
def expiredByTimeStarted (now ttl : Nat) (md : FileMetadata) : Bool :=
  match md.timeStarted with
  | some t => ttl < now - t
  | none => false

/-- The abort commands `_purgeExpiredKeys` sends: one
`AbortMultipartUploadCommand` per expired record, in registry order. -/
def abortCmdsOf (now ttl : Nat) (r : Registry) : List S3Cmd :=
  r.filterMap fun kv =>
    if expiredByTimeStarted now ttl kv.2 then
      some (.abortMultipartUpload kv.2.bucket kv.2.key kv.2.uploadId)
    else none

/-- `_purgeExpiredKeys`.  It parses the stored registry (throwing on a
malformed string; `null` parses to `null` and `|| {}` turns it into `{}`),
sends an abort for every expired record, and synchronously writes the registry
back with `setItem`.  The `delete uploads[k]` inside each abort's `.then`
callback runs in a microtask, strictly after the synchronous
`JSON.stringify(uploads)`/`setItem` at the end of the function, so the
write-back always persists the registry contents unchanged; the deletions
mutate an object that is never serialized again. -/
def purgeExpiredKeys (now ttl : Nat) (s : StorageState) :
    Except JsError Unit × StorageState × List S3Cmd :=
  match s with
  | .malformed => (.error .syntaxError, .malformed, [])
  | .absent => (.ok (), .reg [], [])
  | .reg r => (.ok (), .reg r, abortCmdsOf now ttl r)

/-- `_getCachedUploadParts`.  Returns the resolved value (`none` models both
the explicit `return null` and the implicit `undefined` of the stale path),
the storage state afterwards, and the S3 commands sent.  On a fresh hit it
mutates the record's `lastTouched` (the assignment writes through to the
object inside `uploads`), persists the registry, then sends `ListParts`; a
rejection of that send is an `Except.error` (the command was still sent and
the refreshed registry was already persisted). -/
def getCachedUploadParts (now : Nat) (resp : S3Responses) (bucket key : String)
    (file : JsBlob) (s : StorageState) :
    Except JsError (Option ListPartsOutput) × StorageState × List S3Cmd :=
  match s with
  | .absent => (.ok none, .absent, [])
  | .malformed => (.error .syntaxError, .malformed, [])
  | .reg uploads =>
      let fileKey := getFileKey file bucket key
      match lookupKey uploads fileKey with
      | none => (.ok none, .reg uploads, [])
      | some md =>
          if expiredByLastTouched now md then
            (.ok none, .reg uploads, [])
          else
            let uploads2 := setKey uploads fileKey { md with lastTouched := some now }
            match resp.listPartsFor md.uploadId with
            | .error e =>
                (.error (.s3Error e), .reg uploads2, [.listParts bucket key md.uploadId])
            | .ok out =>
                (.ok (some out), .reg uploads2, [.listParts bucket key md.uploadId])

/-- `_isListPartsOutput` applied to the `cachedUpload` local of `addTask`:
`none` models the `{}` default (no own properties), `some out` a resolved
`ListPartsCommandOutput`. -/
def isListPartsOutput : Option ListPartsOutput → Bool
  | none => false
  | some out => out.UploadId.isSome && out.Parts.isSome

/-- `_addKey`: parse the stored registry (`|| {}` recovers from `null`),
assign `uploads[key] = fileMetadata`, write back. -/
def addKeyStorage (k : String) (md : FileMetadata) :
    StorageState → Except JsError StorageState
  | .malformed => .error .syntaxError
  | .absent => .ok (.reg (setKey [] k md))
  | .reg r => .ok (.reg (setKey r k md))

/-- `_removeKey`: parse the stored registry (`|| {}` recovers from `null`),
`delete uploads[key]`, write back. -/
def removeKeyStorage (k : String) : StorageState → Except JsError StorageState
  | .malformed => .error .syntaxError
  | .absent => .ok (.reg [])
  | .reg r => .ok (.reg (eraseKey r k))

/-- Registry lookup through the storage wrapper (what a subsequent read of
fingerprint `k` would find). -/
def storageLookup (s : StorageState) (k : String) : Option FileMetadata :=
  match s with
  | .reg r => lookupKey r k
  | _ => none

/-- The manager's mutable state: the persisted registry blob and the
in-memory `_uploadTasks` table (session id to task handle). -/
structure ManagerState where
  storage : StorageState
  tasks : List (String × AWSS3UploadTask)
deriving DecidableEq, Repr

/-- `AddTaskInput` (the `s3Client` and `emitter` collaborators are modelled
by the response oracle and the event function below). -/
structure AddTaskInput where
  accessLevel : String
  file : JsBlob
  bucket : String
  key : String
deriving DecidableEq, Repr

deriving instance DecidableEq for Except

/-- Everything one `addTask` call produces: the settled promise, the state
afterwards, the S3 commands sent, and the fingerprint captured by the
`UPLOAD_COMPLETE`/`ABORT` listeners `addTask` registered on the emitter
(`none` when the call threw before reaching the listener registration). -/
structure AddTaskOutcome where
  result : Except JsError AWSS3UploadTask
  state : ManagerState
  cmds : List S3Cmd
  subscribedKey : Option String
deriving DecidableEq, Repr

/-- `_initMultiupload`: send `CreateMultipartUploadCommand` (a rejection
propagates), construct a fresh task with no pre-seeded parts, register it in
`_uploadTasks` under the new session id, and write the new `FileMetadata`
record (with `timeStarted` and `lastTouched` both `Date.now()`, and
`fileName` only for a named `File`) into the registry under the fingerprint. -/
def initMultiupload (now : Nat) (resp : S3Responses) (input : AddTaskInput)
    (st : ManagerState) : Except JsError AWSS3UploadTask × ManagerState × List S3Cmd :=
  let fileKey := getFileKey input.file input.bucket input.key
  match resp.createSession with
  | .error e =>
      (.error (.s3Error e), st, [.createMultipartUpload input.bucket input.key])
  | .ok uploadId =>
      let newTask : AWSS3UploadTask :=
        { uploadId := uploadId, bucket := input.bucket, key := input.key,
          file := input.file, completedParts := none }
      let md : FileMetadata :=
        { uploadId := uploadId, bucket := input.bucket, key := input.key,
          accessLevel := input.accessLevel,
          fileName := match input.file with
            | .file n _ _ _ => some n
            | .blob _ _ => none,
          lastTouched := some now, timeStarted := some now }
      match addKeyStorage fileKey md st.storage with
      | .error e =>
          (.error e, { st with tasks := setKey st.tasks uploadId newTask },
            [.createMultipartUpload input.bucket input.key])
      | .ok s2 =>
          (.ok newTask, { storage := s2, tasks := setKey st.tasks uploadId newTask },
            [.createMultipartUpload input.bucket input.key])

/-- `addTask`: purge expired records (an exception here — in particular the
unguarded `JSON.parse` of a malformed registry — propagates to the caller),
then try the cached-parts lookup with its errors caught (`cachedUpload` stays
`{}`), register the eviction listeners for the fingerprint, and either return
a task pre-seeded from the cached session or fall through to
`_initMultiupload`. -/
def addTask (now : Nat) (resp : S3Responses) (input : AddTaskInput)
    (st : ManagerState) : AddTaskOutcome :=
  match purgeExpiredKeys now oneHourInMs st.storage with
  | (.error e, s1, c1) => ⟨.error e, { st with storage := s1 }, c1, none⟩
  | (.ok _, s1, c1) =>
      match getCachedUploadParts now resp input.bucket input.key input.file s1 with
      | (res, s2, c2) =>
          let cachedUpload : Option ListPartsOutput :=
            match res with
            | .ok o => o
            | .error _ => none
          let fileKey := getFileKey input.file input.bucket input.key
          match cachedUpload with
          | some out =>
              match out.UploadId, out.Parts with
              | some uid, some parts =>
                  let task : AWSS3UploadTask :=
                    { uploadId := uid, bucket := input.bucket, key := input.key,
                      file := input.file, completedParts := some parts }
                  ⟨.ok task, { storage := s2, tasks := setKey st.tasks uid task },
                    c1 ++ c2, some fileKey⟩
              | _, _ =>
                  match initMultiupload now resp input { storage := s2, tasks := st.tasks } with
                  | (r3, st3, c3) => ⟨r3, st3, c1 ++ c2 ++ c3, some fileKey⟩
          | none =>
              match initMultiupload now resp input { storage := s2, tasks := st.tasks } with
              | (r3, st3, c3) => ⟨r3, st3, c1 ++ c2 ++ c3, some fileKey⟩

/-- The body both eviction listeners run when the task emits
`UPLOAD_COMPLETE` or `ABORT`: `this._removeKey(fileKey)`.  Only the persisted
registry is touched; `_uploadTasks` is not. -/
def fireTaskEvent (fileKey : String) (st : ManagerState) :
    Except JsError ManagerState :=
  match removeKeyStorage fileKey st.storage with
  | .error e => .error e
  | .ok s2 => .ok { st with storage := s2 }

/-- `getTask`: pure in-memory lookup in `_uploadTasks`. -/
def getTask (st : ManagerState) (uploadId : String) : Option AWSS3UploadTask :=
  lookupKey st.tasks uploadId

theorem decCharToDigit_decDigitToChar : ∀ d : Nat, d < 10 →
    decCharToDigit (decDigitToChar d) = d := by
  decide

theorem decReprCore_eq_digits : ∀ (fuel n : Nat) (acc : List Char), 0 < n →
    n < 10 ^ fuel →
    decReprCore fuel n acc = (Nat.digits 10 n).reverse.map decDigitToChar ++ acc := by
  intro fuel
  induction fuel with
  | zero => intro n acc hp hlt; simp at hlt; omega
  | succ fuel ih =>
      intro n acc hp hlt
      by_cases h : n < 10
      · have hdig : Nat.digits 10 n = [n % 10] ++ Nat.digits 10 (n / 10) :=
          Nat.digits_def' (by norm_num) hp
        have hdiv : n / 10 = 0 := Nat.div_eq_of_lt h
        have hmod : n % 10 = n := Nat.mod_eq_of_lt h
        rw [hdiv, hmod] at hdig
        simp only [decReprCore, h, if_true, hdig, Nat.digits_zero, List.append_nil,
          List.reverse_cons, List.reverse_nil, List.nil_append, List.map_cons,
          List.map_nil, List.singleton_append]
      · have hdp : 0 < n / 10 := Nat.div_pos (Nat.le_of_not_lt h) (by norm_num)
        have hdlt : n / 10 < 10 ^ fuel := by
          rw [Nat.div_lt_iff_lt_mul (by norm_num : 0 < 10)]
          calc n < 10 ^ (fuel + 1) := hlt
            _ = 10 ^ fuel * 10 := by rw [pow_succ]
        have hdig : Nat.digits 10 n = n % 10 :: Nat.digits 10 (n / 10) :=
          Nat.digits_def' (by norm_num) hp
        simp only [decReprCore, h, if_false]
        rw [ih (n / 10) (decDigitToChar (n % 10) :: acc) hdp hdlt, hdig]
        simp [List.reverse_cons, List.map_append, List.append_assoc]

theorem decDecode_decRepr (n : Nat) : decDecode (decRepr n).data = n := by
  by_cases h : n = 0
  · subst h; decide
  · have hp : 0 < n := Nat.pos_of_ne_zero h
    have hlt : n < 10 ^ (n + 1) :=
      lt_of_lt_of_le (Nat.lt_pow_self (by norm_num) n)
        (Nat.pow_le_pow_right (by norm_num) (Nat.le_succ n))
    have hdata : (decRepr n).data = (Nat.digits 10 n).reverse.map decDigitToChar := by
      show decReprCore (n + 1) n [] = _
      rw [decReprCore_eq_digits (n + 1) n [] hp hlt, List.append_nil]
    rw [hdata]
    unfold decDecode
    have hmap : ((Nat.digits 10 n).reverse.map decDigitToChar).map decCharToDigit
        = (Nat.digits 10 n).reverse := by
      rw [List.map_map]
      conv_rhs => rw [← List.map_id ((Nat.digits 10 n).reverse)]
      apply List.map_congr_left
      intro d hd
      show decCharToDigit (decDigitToChar d) = d
      have hd' : d ∈ Nat.digits 10 n := List.mem_reverse.mp hd
      have : d < 10 := Nat.digits_lt_base (by norm_num) hd'
      exact decCharToDigit_decDigitToChar d this
    rw [hmap, List.reverse_reverse, Nat.ofDigits_digits]

theorem decRepr_injective : Function.Injective decRepr := by
  intro m n h
  have : decDecode (decRepr m).data = decDecode (decRepr n).data := by rw [h]
  rwa [decDecode_decRepr, decDecode_decRepr] at this

/-- C2: `_getFileKey` is deterministic, and changing any single observed field
(name, lastModified, size, type for a `File`; size, type for a `Blob`; and
bucket or key for either) while keeping the others fixed changes the
fingerprint string. -/
theorem getFileKey_deterministic_and_field_sensitive
    (n n' : String) (lm lm' sz sz' : Nat) (ty ty' b b' k k' : String) :
    (getFileKey (.file n lm sz ty) b k = getFileKey (.file n lm sz ty) b k
      ∧ getFileKey (.blob sz ty) b k = getFileKey (.blob sz ty) b k)
    ∧ (n ≠ n' → getFileKey (.file n lm sz ty) b k ≠ getFileKey (.file n' lm sz ty) b k)
    ∧ (lm ≠ lm' → getFileKey (.file n lm sz ty) b k ≠ getFileKey (.file n lm' sz ty) b k)
    ∧ (sz ≠ sz' → getFileKey (.file n lm sz ty) b k ≠ getFileKey (.file n lm sz' ty) b k)
    ∧ (ty ≠ ty' → getFileKey (.file n lm sz ty) b k ≠ getFileKey (.file n lm sz ty') b k)
    ∧ (b ≠ b' → getFileKey (.file n lm sz ty) b k ≠ getFileKey (.file n lm sz ty) b' k)
    ∧ (k ≠ k' → getFileKey (.file n lm sz ty) b k ≠ getFileKey (.file n lm sz ty) b k')
    ∧ (sz ≠ sz' → getFileKey (.blob sz ty) b k ≠ getFileKey (.blob sz' ty) b k)
    ∧ (ty ≠ ty' → getFileKey (.blob sz ty) b k ≠ getFileKey (.blob sz ty') b k)
    ∧ (b ≠ b' → getFileKey (.blob sz ty) b k ≠ getFileKey (.blob sz ty) b' k)
    ∧ (k ≠ k' → getFileKey (.blob sz ty) b k ≠ getFileKey (.blob sz ty) b k') := by
  refine ⟨⟨rfl, rfl⟩, ?_, ?_, ?_, ?_, ?_, ?_, ?_, ?_, ?_, ?_⟩ <;>
  · intro hne heq
    apply hne
    have h := congrArg String.data heq
    simp only [getFileKey, String.data_append, List.append_assoc,
      List.append_cancel_left_eq, List.append_cancel_right_eq] at h
    first
      | exact String.ext h
      | exact decRepr_injective (String.ext h)

/-- Witness for C2 at concrete inputs. -/
theorem getFileKey_deterministic_and_field_sensitive_witness :
    getFileKey (.file "a" 1 2 "t") "b" "k" ≠ getFileKey (.file "c" 1 2 "t") "b" "k"
    ∧ getFileKey (.file "a" 1 2 "t") "b" "k" ≠ getFileKey (.file "a" 3 2 "t") "b" "k"
    ∧ getFileKey (.file "a" 1 2 "t") "b" "k" ≠ getFileKey (.file "a" 1 4 "t") "b" "k"
    ∧ getFileKey (.file "a" 1 2 "t") "b" "k" ≠ getFileKey (.file "a" 1 2 "u") "b" "k"
    ∧ getFileKey (.file "a" 1 2 "t") "b" "k" ≠ getFileKey (.file "a" 1 2 "t") "b2" "k"
    ∧ getFileKey (.file "a" 1 2 "t") "b" "k" ≠ getFileKey (.file "a" 1 2 "t") "b" "k2"
    ∧ getFileKey (.blob 2 "t") "b" "k" ≠ getFileKey (.blob 4 "t") "b" "k"
    ∧ getFileKey (.blob 2 "t") "b" "k" ≠ getFileKey (.blob 2 "u") "b" "k"
    ∧ getFileKey (.blob 2 "t") "b" "k" ≠ getFileKey (.blob 2 "t") "b2" "k"
    ∧ getFileKey (.blob 2 "t") "b" "k" ≠ getFileKey (.blob 2 "t") "b" "k2" := by
  have h := getFileKey_deterministic_and_field_sensitive
    "a" "c" 1 3 2 4 "t" "u" "b" "b2" "k" "k2"
  exact ⟨h.2.1 (by decide), h.2.2.1 (by decide), h.2.2.2.1 (by decide),
    h.2.2.2.2.1 (by decide), h.2.2.2.2.2.1 (by decide), h.2.2.2.2.2.2.1 (by decide),
    h.2.2.2.2.2.2.2.1 (by decide), h.2.2.2.2.2.2.2.2.1 (by decide),
    h.2.2.2.2.2.2.2.2.2.1 (by decide), h.2.2.2.2.2.2.2.2.2.2 (by decide)⟩

theorem lookupKey_setKey {α : Type} (l : List (String × α)) (k k' : String) (v : α) :
    lookupKey (setKey l k v) k' = if k = k' then some v else lookupKey l k' := by
  induction l with
  | nil => simp [setKey, lookupKey]
  | cons hd tl ih =>
      obtain ⟨k0, v0⟩ := hd
      by_cases h0 : k0 = k
      · subst h0
        simp only [setKey, if_true, lookupKey]
        by_cases h1 : k0 = k'
        · subst h1; simp [lookupKey]
        · simp [lookupKey, h1]
      · simp only [setKey, h0, if_false, lookupKey]
        by_cases h1 : k0 = k'
        · subst h1
          have : ¬k0 = k := h0
          simp only [if_true]
          rw [if_neg (fun hk => this hk.symm)]
        · simp [lookupKey, h1, ih]

theorem lookupKey_eraseKey_self {α : Type} (l : List (String × α)) (k : String) :
    lookupKey (eraseKey l k) k = none := by
  induction l with
  | nil => simp [eraseKey, lookupKey]
  | cons hd tl ih =>
      obtain ⟨k0, v0⟩ := hd
      by_cases h0 : k0 = k
      · simp [eraseKey, h0, ih]
      · simp [eraseKey, h0, lookupKey, ih]

theorem eraseKey_eraseKey {α : Type} (l : List (String × α)) (k : String) :
    eraseKey (eraseKey l k) k = eraseKey l k := by
  induction l with
  | nil => simp [eraseKey]
  | cons hd tl ih =>
      obtain ⟨k0, v0⟩ := hd
      by_cases h0 : k0 = k
      · simp [eraseKey, h0, ih]
      · simp [eraseKey, h0, ih]

theorem mem_abortCmdsOf (now ttl : Nat) (r : Registry) (k : String) (md : FileMetadata)
    (hmem : (k, md) ∈ r) (hexp : expiredByTimeStarted now ttl md = true) :
    S3Cmd.abortMultipartUpload md.bucket md.key md.uploadId ∈ abortCmdsOf now ttl r := by
  unfold abortCmdsOf
  rw [List.mem_filterMap]
  exact ⟨(k, md), hmem, by simp [hexp]⟩

theorem abortCmdsOf_no_create (now ttl : Nat) (r : Registry) (b k : String) :
    S3Cmd.createMultipartUpload b k ∉ abortCmdsOf now ttl r := by
  unfold abortCmdsOf
  rw [List.mem_filterMap]
  rintro ⟨⟨k0, md0⟩, _, hf⟩
  by_cases h : expiredByTimeStarted now ttl md0 = true
  · simp [h] at hf
  · simp [h] at hf

theorem abortCmdsOf_no_listParts (now ttl : Nat) (r : Registry) (b k uid : String) :
    S3Cmd.listParts b k uid ∉ abortCmdsOf now ttl r := by
  unfold abortCmdsOf
  rw [List.mem_filterMap]
  rintro ⟨⟨k0, md0⟩, _, hf⟩
  by_cases h : expiredByTimeStarted now ttl md0 = true
  · simp [h] at hf
  · simp [h] at hf

theorem initMultiupload_cmds (now : Nat) (resp : S3Responses) (input : AddTaskInput)
    (st : ManagerState) :
    (initMultiupload now resp input st).2.2 =
      [S3Cmd.createMultipartUpload input.bucket input.key] := by
  unfold initMultiupload
  cases resp.createSession with
  | error e => rfl
  | ok uid =>
      cases h : addKeyStorage (getFileKey input.file input.bucket input.key)
          { uploadId := uid, bucket := input.bucket, key := input.key,
            accessLevel := input.accessLevel,
            fileName := match input.file with
              | .file n _ _ _ => some n
              | .blob _ _ => none,
            lastTouched := some now, timeStarted := some now } st.storage with
      | error e => simp [h]
      | ok s2 => simp [h]

/-- Concrete S3 oracle for witnesses: session creation succeeds with id "S1";
list-parts resolves with that id and one part. -/
def respStub : S3Responses :=
  { createSession := .ok "S1",
    listPartsFor := fun _ => .ok ⟨some "S1", some [⟨1, 5, "etag1"⟩]⟩ }

/-- Concrete oracle whose list-parts send rejects. -/
def respListErr : S3Responses :=
  { createSession := .ok "S2", listPartsFor := fun _ => .error "network" }

/-- Concrete oracle whose create-session send rejects. -/
def respCreateErr : S3Responses :=
  { createSession := .error "denied", listPartsFor := fun _ => .error "network" }

/-- Concrete upload request for witnesses. -/
def inputStub : AddTaskInput :=
  { accessLevel := "public", file := .file "a.png" 100 10 "image/png",
    bucket := "b", key := "k" }

/-- The fingerprint of `inputStub`. -/
def fkStub : String := getFileKey inputStub.file "b" "k"

/-- A registry record for session "S1", started and last touched at time 0. -/
def mdStub : FileMetadata :=
  ⟨"S1", "b", "k", "public", some "a.png", some 0, some 0⟩

/-- C1 (amended): an error inside the cached-parts lookup itself — in
particular a remote list-parts rejection — is caught and `addTask` falls
through to `_initMultiupload`; but a malformed serialized registry makes the
GC pass that runs before the lookup throw, surfacing the persistence error. -/
theorem addTask_lookup_error_caught_but_malformed_throws
    (now : Nat) (resp : S3Responses) (input : AddTaskInput)
    (ts : List (String × AWSS3UploadTask)) (r : Registry) (e : JsError)
    (s2 : StorageState) (c2 : List S3Cmd)
    (h : getCachedUploadParts now resp input.bucket input.key input.file (.reg r)
        = (.error e, s2, c2)) :
    ((addTask now resp input ⟨.reg r, ts⟩).result
        = (initMultiupload now resp input ⟨s2, ts⟩).1
      ∧ (addTask now resp input ⟨.reg r, ts⟩).state
        = (initMultiupload now resp input ⟨s2, ts⟩).2.1
      ∧ (addTask now resp input ⟨.reg r, ts⟩).cmds
        = abortCmdsOf now oneHourInMs r ++ c2
            ++ (initMultiupload now resp input ⟨s2, ts⟩).2.2
      ∧ (addTask now resp input ⟨.reg r, ts⟩).subscribedKey
        = some (getFileKey input.file input.bucket input.key))
    ∧ (addTask now resp input ⟨.malformed, ts⟩).result = .error .syntaxError := by
  refine ⟨?_, rfl⟩
  rcases hi : initMultiupload now resp input ⟨s2, ts⟩ with ⟨r3, st3, c3⟩
  simp only [addTask, purgeExpiredKeys, h, hi]
  exact ⟨trivial, trivial, trivial, trivial⟩

/-- Witness for C1's amended theorem at concrete inputs. -/
theorem addTask_lookup_error_caught_but_malformed_throws_witness :
    (addTask 1000 respListErr inputStub ⟨.reg [(fkStub, mdStub)], []⟩).subscribedKey
      = some fkStub
    ∧ (addTask 1000 respListErr inputStub ⟨.malformed, []⟩).result
      = .error .syntaxError := by
  have h := addTask_lookup_error_caught_but_malformed_throws 1000 respListErr inputStub
    [] [(fkStub, mdStub)] (.s3Error "network")
    (.reg (setKey [(fkStub, mdStub)] fkStub { mdStub with lastTouched := some 1000 }))
    [.listParts "b" "k" "S1"] (by rfl)
  exact ⟨h.1.2.2.2, h.2⟩

/-- C1 counterexample: with a malformed serialized registry, `addTask` does
surface the persistence error (the promise rejects with the `JSON.parse`
`SyntaxError` thrown inside the GC pass) instead of falling through to a
brand-new session. -/
theorem addTask_malformed_registry_surfaces_error :
    (addTask 0 respStub inputStub ⟨.malformed, []⟩).result = .error .syntaxError
    ∧ (addTask 0 respStub inputStub ⟨.malformed, []⟩).subscribedKey = none := by
  exact ⟨rfl, rfl⟩

/-- C4: the GC pass writes the registry back exactly once, with its contents
unchanged (so no record — fresh or expired — is removed by the pass, and an
expired record whose abort has not acknowledged remains persisted), it
completes without throwing on a parsed registry, and every record that is
expired by `timeStarted` gets an abort sent for its session. -/
theorem purge_gc_invariant (now ttl : Nat) (r : Registry) (k : String)
    (md : FileMetadata) (hmem : (k, md) ∈ r) :
    (purgeExpiredKeys now ttl (.reg r)).2.1 = .reg r
    ∧ (purgeExpiredKeys now ttl (.reg r)).1 = .ok ()
    ∧ (expiredByTimeStarted now ttl md = true →
        S3Cmd.abortMultipartUpload md.bucket md.key md.uploadId
          ∈ (purgeExpiredKeys now ttl (.reg r)).2.2) := by
  exact ⟨rfl, rfl, fun hexp => mem_abortCmdsOf now ttl r k md hmem hexp⟩

/-- Witness for C4 at a concrete registry: a record expired by
`timeStarted` stays persisted while its abort is sent. -/
theorem purge_gc_invariant_witness :
    (purgeExpiredKeys 7200000 3600000 (.reg [(fkStub, mdStub)])).2.1
      = .reg [(fkStub, mdStub)]
    ∧ S3Cmd.abortMultipartUpload "b" "k" "S1"
      ∈ (purgeExpiredKeys 7200000 3600000 (.reg [(fkStub, mdStub)])).2.2 := by
  have h := purge_gc_invariant 7200000 3600000 [(fkStub, mdStub)] fkStub mdStub
    (by simp)
  exact ⟨h.1, h.2.2 (by decide)⟩

/-- C7: against an empty registry, `addTask` sends exactly one
`CreateMultipartUploadCommand`, registers the fresh task under the new
session id, and inserts exactly one registry record under the fingerprint,
with session id, bucket, key, access level, `timeStarted` and `lastTouched`
both set to now, and a `fileName` exactly when the source object is a named
`File`. -/
theorem addTask_empty_registry_creates_one_record
    (now : Nat) (resp : S3Responses) (input : AddTaskInput)
    (ts : List (String × AWSS3UploadTask)) (uid : String)
    (hcs : resp.createSession = .ok uid) :
    addTask now resp input ⟨.reg [], ts⟩ =
      ⟨.ok { uploadId := uid, bucket := input.bucket, key := input.key,
             file := input.file, completedParts := none },
       { storage := .reg [(getFileKey input.file input.bucket input.key,
           { uploadId := uid, bucket := input.bucket, key := input.key,
             accessLevel := input.accessLevel,
             fileName := match input.file with
               | .file n _ _ _ => some n
               | .blob _ _ => none,
             lastTouched := some now, timeStarted := some now })],
         tasks := setKey ts uid
           { uploadId := uid, bucket := input.bucket, key := input.key,
             file := input.file, completedParts := none } },
       [.createMultipartUpload input.bucket input.key],
       some (getFileKey input.file input.bucket input.key)⟩ := by
  simp only [addTask, purgeExpiredKeys, abortCmdsOf, List.filterMap_nil,
    getCachedUploadParts, lookupKey, initMultiupload, hcs, addKeyStorage, setKey,
    List.nil_append, List.append_nil]

/-- Witness for C7 at concrete inputs (named `File`, so `fileName` present). -/
theorem addTask_empty_registry_creates_one_record_witness :
    addTask 0 respStub inputStub ⟨.reg [], []⟩ =
      ⟨.ok ⟨"S1", "b", "k", .file "a.png" 100 10 "image/png", none⟩,
       ⟨.reg [("a.png-100-10-image/png-b-k", mdStub)],
        [("S1", ⟨"S1", "b", "k", .file "a.png" 100 10 "image/png", none⟩)]⟩,
       [.createMultipartUpload "b" "k"],
       some "a.png-100-10-image/png-b-k"⟩ :=
  addTask_empty_registry_creates_one_record 0 respStub inputStub [] "S1" rfl

/-- C8: when the fingerprint has no cached record and the remote
create-session call rejects, `addTask` rejects with that error, the registry
is unchanged (no record written), and the task table is unchanged. -/
theorem addTask_create_failure_is_fatal
    (now : Nat) (resp : S3Responses) (input : AddTaskInput)
    (ts : List (String × AWSS3UploadTask)) (r : Registry) (e : String)
    (hl : lookupKey r (getFileKey input.file input.bucket input.key) = none)
    (hcs : resp.createSession = .error e) :
    (addTask now resp input ⟨.reg r, ts⟩).result = .error (.s3Error e)
    ∧ (addTask now resp input ⟨.reg r, ts⟩).state.storage = .reg r
    ∧ (addTask now resp input ⟨.reg r, ts⟩).state.tasks = ts := by
  simp only [addTask, purgeExpiredKeys, getCachedUploadParts, hl, initMultiupload, hcs]
  exact ⟨trivial, trivial, trivial⟩

/-- Witness for C8 at concrete inputs. -/
theorem addTask_create_failure_is_fatal_witness :
    (addTask 0 respCreateErr inputStub ⟨.reg [], []⟩).result
      = .error (.s3Error "denied")
    ∧ (addTask 0 respCreateErr inputStub ⟨.reg [], []⟩).state.storage = .reg []
    ∧ (addTask 0 respCreateErr inputStub ⟨.reg [], []⟩).state.tasks = [] :=
  addTask_create_failure_is_fatal 0 respCreateErr inputStub [] [] "denied" rfl rfl

/-- C3: with a cached record for the fingerprint that is fresh by
`lastTouched`, `addTask` refreshes `lastTouched` to now and persists the
registry, sends a `ListPartsCommand` for the cached session id, and returns a
task pre-seeded with the parts that query reports, registered under the
cached session id — and sends no `CreateMultipartUploadCommand`. -/
theorem addTask_fresh_record_resumes
    (now t : Nat) (resp : S3Responses) (input : AddTaskInput)
    (ts : List (String × AWSS3UploadTask)) (r : Registry) (md : FileMetadata)
    (out : ListPartsOutput) (uid : String) (parts : List S3Part)
    (hl : lookupKey r (getFileKey input.file input.bucket input.key) = some md)
    (ht : md.lastTouched = some t)
    (hfresh : now - t ≤ oneHourInMs)
    (hlp : resp.listPartsFor md.uploadId = .ok out)
    (hu : out.UploadId = some uid)
    (hp : out.Parts = some parts) :
    (addTask now resp input ⟨.reg r, ts⟩).result
      = .ok { uploadId := uid, bucket := input.bucket, key := input.key,
              file := input.file, completedParts := some parts }
    ∧ (addTask now resp input ⟨.reg r, ts⟩).state.storage
      = .reg (setKey r (getFileKey input.file input.bucket input.key)
          { md with lastTouched := some now })
    ∧ (addTask now resp input ⟨.reg r, ts⟩).state.tasks
      = setKey ts uid { uploadId := uid, bucket := input.bucket, key := input.key,
                        file := input.file, completedParts := some parts }
    ∧ S3Cmd.listParts input.bucket input.key md.uploadId
        ∈ (addTask now resp input ⟨.reg r, ts⟩).cmds
    ∧ (∀ b' k', S3Cmd.createMultipartUpload b' k'
        ∉ (addTask now resp input ⟨.reg r, ts⟩).cmds) := by
  have hexp : expiredByLastTouched now md = false := by
    simp only [expiredByLastTouched, ht, decide_eq_false_iff_not]
    omega
  rcases out with ⟨ou, op⟩
  cases hu
  cases hp
  have heq : addTask now resp input ⟨.reg r, ts⟩ =
      ⟨.ok { uploadId := uid, bucket := input.bucket, key := input.key,
             file := input.file, completedParts := some parts },
       { storage := .reg (setKey r (getFileKey input.file input.bucket input.key)
           { md with lastTouched := some now }),
         tasks := setKey ts uid
           { uploadId := uid, bucket := input.bucket, key := input.key,
             file := input.file, completedParts := some parts } },
       abortCmdsOf now oneHourInMs r
         ++ [S3Cmd.listParts input.bucket input.key md.uploadId],
       some (getFileKey input.file input.bucket input.key)⟩ := by
    simp only [addTask, purgeExpiredKeys, getCachedUploadParts, hl, hexp,
      Bool.false_eq_true, if_false, hlp]
  rw [heq]
  refine ⟨rfl, rfl, rfl, ?_, ?_⟩
  · simp
  · intro b' k' hmem
    rcases List.mem_append.mp hmem with hmem | hmem
    · exact abortCmdsOf_no_create now oneHourInMs r b' k' hmem
    · simp at hmem

/-- Witness for C3 at concrete inputs. -/
theorem addTask_fresh_record_resumes_witness :
    (addTask 1000 respStub inputStub ⟨.reg [(fkStub, mdStub)], []⟩).result
      = .ok ⟨"S1", "b", "k", .file "a.png" 100 10 "image/png", some [⟨1, 5, "etag1"⟩]⟩
    ∧ S3Cmd.listParts "b" "k" "S1"
        ∈ (addTask 1000 respStub inputStub ⟨.reg [(fkStub, mdStub)], []⟩).cmds
    ∧ S3Cmd.createMultipartUpload "b" "k"
        ∉ (addTask 1000 respStub inputStub ⟨.reg [(fkStub, mdStub)], []⟩).cmds := by
  have h := addTask_fresh_record_resumes 1000 0 respStub inputStub []
    [(fkStub, mdStub)] mdStub ⟨some "S1", some [⟨1, 5, "etag1"⟩]⟩ "S1"
    [⟨1, 5, "etag1"⟩] rfl rfl (by decide) rfl rfl rfl
  exact ⟨h.1, h.2.2.2.1, h.2.2.2.2 "b" "k"⟩

/-- C5: with a cached record that is stale by `lastTouched`, the lookup step
returns no cached session, leaves the registry untouched and sends nothing
(no abort, no removal), and `addTask` proceeds exactly as the fresh path
does, sending a `CreateMultipartUploadCommand`. -/
theorem addTask_stale_record_starts_fresh
    (now t : Nat) (resp : S3Responses) (input : AddTaskInput)
    (ts : List (String × AWSS3UploadTask)) (r : Registry) (md : FileMetadata)
    (hl : lookupKey r (getFileKey input.file input.bucket input.key) = some md)
    (ht : md.lastTouched = some t)
    (hstale : oneHourInMs < now - t) :
    getCachedUploadParts now resp input.bucket input.key input.file (.reg r)
      = (.ok none, .reg r, [])
    ∧ (addTask now resp input ⟨.reg r, ts⟩).result
      = (initMultiupload now resp input ⟨.reg r, ts⟩).1
    ∧ (addTask now resp input ⟨.reg r, ts⟩).state
      = (initMultiupload now resp input ⟨.reg r, ts⟩).2.1
    ∧ (addTask now resp input ⟨.reg r, ts⟩).cmds
      = abortCmdsOf now oneHourInMs r
          ++ [S3Cmd.createMultipartUpload input.bucket input.key]
    ∧ S3Cmd.createMultipartUpload input.bucket input.key
        ∈ (addTask now resp input ⟨.reg r, ts⟩).cmds := by
  have hexp : expiredByLastTouched now md = true := by
    simp only [expiredByLastTouched, ht, decide_eq_true_eq]
    exact hstale
  have hg : getCachedUploadParts now resp input.bucket input.key input.file (.reg r)
      = (.ok none, .reg r, []) := by
    simp only [getCachedUploadParts, hl, hexp, if_true]
  rcases hi : initMultiupload now resp input ⟨.reg r, ts⟩ with ⟨r3, st3, c3⟩
  have hc3 : c3 = [S3Cmd.createMultipartUpload input.bucket input.key] := by
    have := initMultiupload_cmds now resp input ⟨.reg r, ts⟩
    rw [hi] at this
    exact this
  have heq : addTask now resp input ⟨.reg r, ts⟩ =
      ⟨r3, st3, abortCmdsOf now oneHourInMs r ++ [] ++ c3,
       some (getFileKey input.file input.bucket input.key)⟩ := by
    simp only [addTask, purgeExpiredKeys, hg, hi]
  refine ⟨hg, ?_, ?_, ?_, ?_⟩
  · rw [heq]
  · rw [heq]
  · rw [heq]
    simp [hc3]
  · rw [heq]
    simp [hc3]

/-- Witness for C5 at concrete inputs: the record is one hour and one second
stale by `lastTouched` (and also expired by `timeStarted`, so the GC pass
that runs first sends an abort, while the lookup itself sends nothing). -/
theorem addTask_stale_record_starts_fresh_witness :
    getCachedUploadParts 3601000 respStub "b" "k" (.file "a.png" 100 10 "image/png")
      (.reg [(fkStub, mdStub)]) = (.ok none, .reg [(fkStub, mdStub)], [])
    ∧ S3Cmd.createMultipartUpload "b" "k"
        ∈ (addTask 3601000 respStub inputStub ⟨.reg [(fkStub, mdStub)], []⟩).cmds := by
  have h := addTask_stale_record_starts_fresh 3601000 0 respStub inputStub []
    [(fkStub, mdStub)] mdStub rfl rfl (by decide)
  exact ⟨h.1, h.2.2.2.2⟩

theorem addTask_subscribes_fileKey (now : Nat) (resp : S3Responses)
    (input : AddTaskInput) (st : ManagerState) (hs : st.storage ≠ .malformed) :
    (addTask now resp input st).subscribedKey
      = some (getFileKey input.file input.bucket input.key) := by
  rcases st with ⟨s, ts⟩
  cases s with
  | malformed => exact absurd rfl hs
  | absent =>
      rcases hi : initMultiupload now resp input ⟨.reg [], ts⟩ with ⟨r3, st3, c3⟩
      simp [addTask, purgeExpiredKeys, getCachedUploadParts, lookupKey, hi]
  | reg r =>
      rcases hg : getCachedUploadParts now resp input.bucket input.key input.file
          (.reg r) with ⟨res, s2, c2⟩
      cases res with
      | error e =>
          rcases hi : initMultiupload now resp input ⟨s2, ts⟩ with ⟨r3, st3, c3⟩
          simp [addTask, purgeExpiredKeys, hg, hi]
      | ok o =>
          cases o with
          | none =>
              rcases hi : initMultiupload now resp input ⟨s2, ts⟩ with ⟨r3, st3, c3⟩
              simp [addTask, purgeExpiredKeys, hg, hi]
          | some out =>
              rcases out with ⟨ou, op⟩
              cases ou with
              | none =>
                  rcases hi : initMultiupload now resp input ⟨s2, ts⟩ with ⟨r3, st3, c3⟩
                  simp [addTask, purgeExpiredKeys, hg, hi]
              | some uid =>
                  cases op with
                  | none =>
                      rcases hi : initMultiupload now resp input ⟨s2, ts⟩
                        with ⟨r3, st3, c3⟩
                      simp [addTask, purgeExpiredKeys, hg, hi]
                  | some parts =>
                      simp [addTask, purgeExpiredKeys, hg]

/-- C6: every `addTask` call that does not throw in the GC pass subscribes
the eviction listeners for the request's fingerprint, and firing either
listener (completion or abort) removes the fingerprint from the persisted
registry: afterwards the fingerprint is absent, and firing again is a no-op
that succeeds on the same state. -/
theorem task_events_evict_fingerprint
    (now : Nat) (resp : S3Responses) (input : AddTaskInput) (st stE : ManagerState)
    (fileKey : String) (hs : st.storage ≠ .malformed)
    (hsE : stE.storage ≠ .malformed) :
    (addTask now resp input st).subscribedKey
      = some (getFileKey input.file input.bucket input.key)
    ∧ ∃ st', fireTaskEvent fileKey stE = .ok st'
        ∧ storageLookup st'.storage fileKey = none
        ∧ fireTaskEvent fileKey st' = .ok st' := by
  refine ⟨addTask_subscribes_fileKey now resp input st hs, ?_⟩
  rcases stE with ⟨s, ts⟩
  cases s with
  | malformed => exact absurd rfl hsE
  | absent =>
      exact ⟨⟨.reg [], ts⟩, rfl, rfl, rfl⟩
  | reg r =>
      refine ⟨⟨.reg (eraseKey r fileKey), ts⟩, rfl, ?_, ?_⟩
      · exact lookupKey_eraseKey_self r fileKey
      · simp [fireTaskEvent, removeKeyStorage, eraseKey_eraseKey]

/-- Witness for C6 at concrete inputs. -/
theorem task_events_evict_fingerprint_witness :
    (addTask 0 respStub inputStub ⟨.reg [(fkStub, mdStub)], []⟩).subscribedKey
      = some fkStub
    ∧ ∃ st', fireTaskEvent fkStub ⟨.reg [(fkStub, mdStub)], []⟩ = .ok st'
        ∧ storageLookup st'.storage fkStub = none
        ∧ fireTaskEvent fkStub st' = .ok st' := by
  have h := task_events_evict_fingerprint 0 respStub inputStub
    ⟨.reg [(fkStub, mdStub)], []⟩ ⟨.reg [(fkStub, mdStub)], []⟩ fkStub
    (by simp) (by simp)
  exact h

/-- C9: a record with no `lastTouched` property is treated as fresh by the
cache lookup regardless of its other timestamps — the lookup proceeds to send
`ListParts` for its session and (re)writes `lastTouched` — and the GC pass
never sends an abort for a record with no `timeStarted` property and never
removes it: the abort commands of a pass are unchanged if records without
`timeStarted` are dropped from consideration, and the write-back persists the
registry unchanged. -/
theorem missing_staleness_fields_never_expire
    (now ttl : Nat) (resp : S3Responses) (b k : String) (f : JsBlob)
    (r r' : Registry) (md : FileMetadata)
    (hl : lookupKey r (getFileKey f b k) = some md)
    (hn : md.lastTouched = none) :
    ((getCachedUploadParts now resp b k f (.reg r)).2.2
        = [S3Cmd.listParts b k md.uploadId]
      ∧ (getCachedUploadParts now resp b k f (.reg r)).2.1
        = .reg (setKey r (getFileKey f b k) { md with lastTouched := some now }))
    ∧ (abortCmdsOf now ttl r'
        = abortCmdsOf now ttl (r'.filter fun p => p.2.timeStarted.isSome)
      ∧ (purgeExpiredKeys now ttl (.reg r')).2.1 = .reg r') := by
  have hexp : expiredByLastTouched now md = false := by
    simp [expiredByLastTouched, hn]
  constructor
  · cases hlp : resp.listPartsFor md.uploadId with
    | error e => simp [getCachedUploadParts, hl, hexp, hlp]
    | ok out => simp [getCachedUploadParts, hl, hexp, hlp]
  · refine ⟨?_, rfl⟩
    induction r' with
    | nil => rfl
    | cons hd tl ih =>
        obtain ⟨k0, md0⟩ := hd
        cases hts : md0.timeStarted with
        | none =>
            have he0 : expiredByTimeStarted now ttl md0 = false := by
              simp [expiredByTimeStarted, hts]
            simp [abortCmdsOf, List.filterMap_cons, List.filter_cons, he0, hts,
              Option.isSome] at ih ⊢
            exact ih
        | some t0 =>
            have hs0 : md0.timeStarted.isSome = true := by simp [hts]
            simp only [abortCmdsOf, List.filterMap_cons, List.filter_cons, hs0,
              if_true] at ih ⊢
            cases he0 : expiredByTimeStarted now ttl md0 with
            | false => simp only [he0, Bool.false_eq_true, if_false]; exact ih
            | true => simp only [he0, if_true]; rw [ih]

/-- Witness for C9 at concrete inputs: a record with neither `lastTouched`
nor `timeStarted`, one hundred hours after time zero, is still consulted by
the lookup (ListParts sent) and never aborted by the GC pass. -/
theorem missing_staleness_fields_never_expire_witness :
    ((getCachedUploadParts 360000000 respStub "b" "k"
        (.file "a.png" 100 10 "image/png")
        (.reg [(fkStub, ⟨"S1", "b", "k", "public", none, none, none⟩)])).2.2
      = [S3Cmd.listParts "b" "k" "S1"])
    ∧ abortCmdsOf 360000000 3600000
        [(fkStub, ⟨"S1", "b", "k", "public", none, none, none⟩)] = [] := by
  have h := missing_staleness_fields_never_expire 360000000 3600000 respStub
    "b" "k" (.file "a.png" 100 10 "image/png")
    [(fkStub, ⟨"S1", "b", "k", "public", none, none, none⟩)]
    [(fkStub, ⟨"S1", "b", "k", "public", none, none, none⟩)]
    ⟨"S1", "b", "k", "public", none, none, none⟩ rfl rfl
  refine ⟨h.1.1, ?_⟩
  rw [h.2.1]
  rfl

theorem lookupKey_setKey_isSome {α : Type} (l : List (String × α)) (k k' : String)
    (v : α) (h : (lookupKey l k').isSome) : (lookupKey (setKey l k v) k').isSome := by
  rw [lookupKey_setKey]
  by_cases hk : k = k'
  · simp [hk]
  · simp [hk, h]

theorem addTask_tasks_characterization (now : Nat) (resp : S3Responses)
    (input : AddTaskInput) (st : ManagerState) :
    ((addTask now resp input st).state.tasks = st.tasks
      ∧ ∀ tk, (addTask now resp input st).result ≠ .ok tk)
    ∨ ∃ uid tk, (addTask now resp input st).state.tasks = setKey st.tasks uid tk
        ∧ tk.uploadId = uid
        ∧ ((addTask now resp input st).result = .ok tk
            ∨ ∀ tk', (addTask now resp input st).result ≠ .ok tk') := by
  rcases st with ⟨s, ts⟩
  cases s with
  | malformed =>
      exact Or.inl ⟨rfl, by simp [addTask, purgeExpiredKeys]⟩
  | absent =>
      cases hcs : resp.createSession with
      | error e =>
          refine Or.inl ⟨?_, ?_⟩ <;>
            simp [addTask, purgeExpiredKeys, getCachedUploadParts, lookupKey,
              initMultiupload, hcs]
      | ok uid =>
          refine Or.inr ⟨uid, { uploadId := uid, bucket := input.bucket, key := input.key, file := input.file, completedParts := none }, ?_, rfl, Or.inl ?_⟩ <;>
            simp [addTask, purgeExpiredKeys, getCachedUploadParts, lookupKey,
              initMultiupload, hcs, addKeyStorage]
  | reg r =>
      cases hlk : lookupKey r (getFileKey input.file input.bucket input.key) with
      | none =>
          cases hcs : resp.createSession with
          | error e =>
              refine Or.inl ⟨?_, ?_⟩ <;>
                simp [addTask, purgeExpiredKeys, getCachedUploadParts, hlk,
                  initMultiupload, hcs]
          | ok uid =>
              refine Or.inr ⟨uid, { uploadId := uid, bucket := input.bucket, key := input.key, file := input.file, completedParts := none }, ?_, rfl, Or.inl ?_⟩ <;>
                simp [addTask, purgeExpiredKeys, getCachedUploadParts, hlk,
                  initMultiupload, hcs, addKeyStorage]
      | some md =>
          cases hexp : expiredByLastTouched now md with
          | true =>
              cases hcs : resp.createSession with
              | error e =>
                  refine Or.inl ⟨?_, ?_⟩ <;>
                    simp [addTask, purgeExpiredKeys, getCachedUploadParts, hlk, hexp,
                      initMultiupload, hcs]
              | ok uid =>
                  refine Or.inr ⟨uid, { uploadId := uid, bucket := input.bucket, key := input.key, file := input.file, completedParts := none }, ?_, rfl, Or.inl ?_⟩ <;>
                    simp [addTask, purgeExpiredKeys, getCachedUploadParts, hlk, hexp,
                      initMultiupload, hcs, addKeyStorage]
          | false =>
              cases hlp : resp.listPartsFor md.uploadId with
              | error e2 =>
                  cases hcs : resp.createSession with
                  | error e =>
                      refine Or.inl ⟨?_, ?_⟩ <;>
                        simp [addTask, purgeExpiredKeys, getCachedUploadParts, hlk,
                          hexp, hlp, initMultiupload, hcs]
                  | ok uid =>
                      refine Or.inr ⟨uid, { uploadId := uid, bucket := input.bucket, key := input.key, file := input.file, completedParts := none }, ?_, rfl, Or.inl ?_⟩ <;>
                        simp [addTask, purgeExpiredKeys, getCachedUploadParts, hlk,
                          hexp, hlp, initMultiupload, hcs, addKeyStorage]
              | ok out =>
                  rcases out with ⟨ou, op⟩
                  cases ou with
                  | none =>
                      cases hcs : resp.createSession with
                      | error e =>
                          refine Or.inl ⟨?_, ?_⟩ <;>
                            simp [addTask, purgeExpiredKeys, getCachedUploadParts,
                              hlk, hexp, hlp, initMultiupload, hcs]
                      | ok uid =>
                          refine Or.inr ⟨uid, { uploadId := uid, bucket := input.bucket, key := input.key, file := input.file, completedParts := none }, ?_, rfl, Or.inl ?_⟩ <;>
                            simp [addTask, purgeExpiredKeys, getCachedUploadParts,
                              hlk, hexp, hlp, initMultiupload, hcs, addKeyStorage]
                  | some uid0 =>
                      cases op with
                      | none =>
                          cases hcs : resp.createSession with
                          | error e =>
                              refine Or.inl ⟨?_, ?_⟩ <;>
                                simp [addTask, purgeExpiredKeys, getCachedUploadParts,
                                  hlk, hexp, hlp, initMultiupload, hcs]
                          | ok uid =>
                              refine Or.inr ⟨uid, { uploadId := uid, bucket := input.bucket, key := input.key, file := input.file, completedParts := none }, ?_, rfl, Or.inl ?_⟩ <;>
                                simp [addTask, purgeExpiredKeys, getCachedUploadParts,
                                  hlk, hexp, hlp, initMultiupload, hcs, addKeyStorage]
                      | some parts =>
                          refine Or.inr ⟨uid0, { uploadId := uid0, bucket := input.bucket, key := input.key, file := input.file, completedParts := some parts }, ?_, rfl, Or.inl ?_⟩ <;>
                            simp [addTask, purgeExpiredKeys, getCachedUploadParts,
                              hlk, hexp, hlp]

/-- C10 (amended): no operation ever removes an entry from the in-memory
task table — firing a completion/abort notification mutates only the
persisted registry, never the task table, and `addTask` only adds or
replaces entries, so a registered session id stays present — and a task
returned by `addTask` is registered under its session id at return time;
but a later `addTask` that resumes or re-opens the same session id
overwrites the handle, so `getTask` is not guaranteed to return the original
handle for the remainder of the process lifetime. -/
theorem task_table_never_shrinks
    (now : Nat) (resp : S3Responses) (input : AddTaskInput) (st : ManagerState)
    (fileKey uid : String) (task : AWSS3UploadTask) :
    (∀ st', fireTaskEvent fileKey st = .ok st' → st'.tasks = st.tasks)
    ∧ ((getTask st uid).isSome →
        (getTask (addTask now resp input st).state uid).isSome)
    ∧ ((addTask now resp input st).result = .ok task →
        getTask (addTask now resp input st).state task.uploadId = some task) := by
  refine ⟨?_, ?_, ?_⟩
  · intro st' h
    unfold fireTaskEvent at h
    cases hr : removeKeyStorage fileKey st.storage with
    | error e => rw [hr] at h; cases h
    | ok s2 => rw [hr] at h; cases h; rfl
  · intro hsome
    rcases addTask_tasks_characterization now resp input st with
      ⟨hts, _⟩ | ⟨u, tk, hts, _, _⟩
    · rw [getTask, hts]
      exact hsome
    · rw [getTask, hts]
      exact lookupKey_setKey_isSome st.tasks u uid tk hsome
  · intro hok
    rcases addTask_tasks_characterization now resp input st with
      ⟨_, hne⟩ | ⟨u, tk, hts, huid, hres⟩
    · exact absurd hok (hne task)
    · rcases hres with hres | hres
      · rw [hok] at hres
        injection hres with htk
        subst htk
        rw [getTask, hts, huid, lookupKey_setKey]
        simp
      · exact absurd hok (hres task)

/-- The task handle registered under session id "S1" before a second call. -/
def task1Stub : AWSS3UploadTask :=
  ⟨"S1", "b", "k", .file "a.png" 100 10 "image/png", none⟩

/-- C10 counterexample: a second `addTask` for the same file resumes the
cached session "S1" and re-registers `_uploadTasks["S1"]` with a new task
handle, so `getTask "S1"` no longer returns the originally registered
handle — it is replaced, not preserved for the remainder of the process. -/
theorem getTask_handle_replaced_counterexample :
    getTask ⟨.reg [(fkStub, mdStub)], [("S1", task1Stub)]⟩ "S1" = some task1Stub
    ∧ getTask (addTask 1000 respStub inputStub
        ⟨.reg [(fkStub, mdStub)], [("S1", task1Stub)]⟩).state "S1"
      ≠ some task1Stub := by
  exact ⟨rfl, by decide⟩

/-- Witness for C10's amended theorem at concrete inputs. -/
theorem task_table_never_shrinks_witness :
    (getTask ⟨.reg [], [("S1", task1Stub)]⟩ "S1").isSome
    ∧ (getTask (addTask 0 respStub inputStub
        ⟨.reg [], [("S1", task1Stub)]⟩).state "S1").isSome := by
  have h := task_table_never_shrinks 0 respStub inputStub
    ⟨.reg [], [("S1", task1Stub)]⟩ fkStub "S1" task1Stub
  exact ⟨by decide, h.2.1 (by decide)⟩
